import Mathlib

/-!
Verification of the document-sync engine (app.py, src/FileManagement.py).

The development shallowly embeds the sync engine: the persisted file-state
store (FileState), the content hasher (get_file_sha1), the paginated and
retrying remote enumeration (get_all_document_ids) and the batch
orchestration in main().  External collaborators (the HTTP layer, hashlib,
the local filesystem) appear as explicit parameters: an Env record carries
the filesystem snapshot, the SHA1 function, the upload responses and the
remote page oracle for one batch run.  Python exceptions that the source
catches are represented by Option results or explicit error branches;
exceptions the source does not catch surface as error values that abort the
enclosing computation, mirroring propagation.
-/

namespace RagSync

set_option maxRecDepth 2000

/-- Absolute file path, the string key of the file_states dict. -/
abbrev Path := String

/-- Remote document identifier. -/
abbrev DocId := String

/-- Hex digest string as returned by hashlib.sha1().hexdigest(). -/
abbrev Digest := String

/-- File contents as a list of bytes. -/
abbrev Content := List Nat

/-- os.path.basename: the last slash-separated component of a path. -/
def basename (p : Path) : String := (p.splitOn "/").getLastD ""

/-- One value of FileState.file_states: the dict literal written by
FileState.add_file (FileManagement.py lines 80-85): basename, sha1,
document_id and cosine_similarity. -/
structure FileRecord where
  basename : String
  sha1 : Digest
  document_id : Option DocId
  cosine_similarity : Option Int
deriving DecidableEq, Repr

/-- The file_states mapping of FileState: path keys to records. -/
abbrev SyncState := Path → Option FileRecord

/-- The empty file_states dict. -/
def emptyStates : SyncState := fun _ => none

/-- Python exceptions relevant to the embedded code paths. -/
inductive PyErr where
  | fileNotFound
  | jsonDecode
  | permission
  | indexError
  | keyError
deriving DecidableEq, Repr

/-- One-shot per-batch environment: the local filesystem snapshot, the SHA1
digest function (hashlib is an external collaborator; a digest is a 40-char
hex string, in particular never empty), the result of upload_document per
path (none models every failure that upload_document itself catches and
turns into a None return), and the remote listing oracle, indexed by the
requested page number and by the global request counter (so transient
failures are expressible). -/
structure UploadJson where
  data : Option (List (Option DocId))
deriving DecidableEq, Repr

/-- Remote response to one documents-page request in get_all_document_ids:
a response whose data.docs keys are present, carrying the docs list whose
entries each may or may not hold the "id" key (doc["id"] at app.py line 269
raises KeyError on an entry without it); a response missing the data/docs
keys (the "Unexpected response format" branch); or a
requests.RequestException. -/
inductive PageResp where
  | ok (docs : List (Option DocId))
  | malformed
  | transportError
deriving DecidableEq, Repr

structure Env where
  fs : Path → Option Content
  sha1 : Content → Digest
  upload : Path → Option UploadJson
  pages : Nat → Nat → PageResp

/-! ## Content hasher: FileState.get_file_sha1 (FileManagement.py 45-63)

The body is: open the file, `buf = afile.read()` (a single read of the whole
file), `hasher.update(buf)`, return the hexdigest; IOError yields None.
`get_file_sha1_reads` records the sequence of buffers returned by the read
calls the code performs on a file of the given content: exactly one buffer,
the entire content.  `hasherDigest` is the digest of a sequence of
hasher.update calls: the hash of the concatenation of the buffers. -/

/-- The buffers read by get_file_sha1 on a file with the given content:
a single afile.read() returning everything (no 4096-byte block loop). -/
def get_file_sha1_reads (c : Content) : List Content := [c]

/-- Concatenation of a sequence of buffers. -/
def concatBufs : List Content → Content
  | [] => []
  | b :: bs => b ++ concatBufs bs

/-- Digest resulting from feeding the buffers to hasher.update in order. -/
def hasherDigest (sha1 : Content → Digest) (bufs : List Content) : Digest :=
  sha1 (concatBufs bufs)

/-- FileState.get_file_sha1: None when the file cannot be read, otherwise
the digest of the buffers actually read. -/
def get_file_sha1 (env : Env) (p : Path) : Option Digest :=
  match env.fs p with
  | none => none
  | some c => some (hasherDigest env.sha1 (get_file_sha1_reads c))

/-- Reference definition following the spec sentence "Reads the file in
fixed-size blocks (4096 bytes) until exhaustion": the read buffers a
block-streaming implementation would produce.  chunkBlocks bsPred splits a
list into consecutive blocks of size bsPred + 1. -/
def chunkBlocks (bsPred : Nat) : List Nat → List (List Nat)
  | [] => []
  | x :: xs => (x :: xs).take (bsPred + 1) :: chunkBlocks bsPred (xs.drop bsPred)
termination_by l => l.length
decreasing_by simp [List.length_drop]; omega

/-- Reference definition following the spec sentence on 4096-byte streaming:
the sequence of read buffers under fixed 4096-byte blocks. -/
def specStreamReads (c : Content) : List Content := chunkBlocks 4095 c

/-! ## Sync state store: FileState (FileManagement.py) -/

/-- FileState.should_upload (lines 89-113): hash the file; a falsy digest
(None, or the empty string, per `if not sha1_sum`) means upload; untracked
path means upload; tracked with equal stored sha1 means skip; tracked with
different sha1 means upload. -/
def should_upload (env : Env) (st : SyncState) (p : Path) : Bool :=
  match get_file_sha1 env p with
  | none => true
  | some h =>
    if h = "" then true
    else
      match st p with
      | some r => if r.sha1 = h then false else true
      | none => true

/-- FileState.add_file (lines 65-87): recompute the hash; on a falsy digest
log and return without touching the state; otherwise upsert the record at
the path and persist. -/
def add_file (env : Env) (st : SyncState) (p : Path) (docId : DocId)
    (cos : Option Int) : SyncState :=
  match get_file_sha1 env p with
  | none => st
  | some h =>
    if h = "" then st
    else fun q =>
      if q = p then
        some { basename := basename p, sha1 := h, document_id := some docId,
               cosine_similarity := cos }
      else st q

/-- FileState.update_document_id (lines 115-128): mutate document_id for a
tracked path; warn and no-op for an untracked one. -/
def update_document_id (st : SyncState) (p : Path) (newId : DocId) : SyncState :=
  match st p with
  | some r => fun q => if q = p then some { r with document_id := some newId } else st q
  | none => st

/-! ## FileState._load_state (FileManagement.py 21-33)

The body is: `try: if os.path.exists(STATE_FILE): return json.load(open(...))
else: return {}` with `except (FileNotFoundError, json.JSONDecodeError):
return {}`.  A Snapshot describes the condition of the state file on disk;
openAndParse is the primitive the try block invokes, raising the Python
exception matching the condition; load_state embeds the try/except, turning
exactly the two named exception classes into the empty dict and letting any
other exception (such as PermissionError) propagate. -/

inductive Snapshot where
  | absent
  | unreadable
  | malformed
  | valid (m : SyncState)

/-- os.path.exists on the snapshot file. -/
def snapshotExists : Snapshot → Bool
  | Snapshot.absent => false
  | _ => true

/-- open + json.load on the snapshot file: the exception each condition
raises, or the parsed mapping. -/
def openAndParse : Snapshot → Except PyErr SyncState
  | Snapshot.absent => Except.error PyErr.fileNotFound
  | Snapshot.unreadable => Except.error PyErr.permission
  | Snapshot.malformed => Except.error PyErr.jsonDecode
  | Snapshot.valid m => Except.ok m

/-- FileState._load_state: the try/except around the existence check and
the parse.  Only FileNotFoundError and json.JSONDecodeError are caught. -/
def load_state (s : Snapshot) : Except PyErr SyncState :=
  match (if snapshotExists s then openAndParse s else Except.ok emptyStates) with
  | Except.ok m => Except.ok m
  | Except.error PyErr.fileNotFound => Except.ok emptyStates
  | Except.error PyErr.jsonDecode => Except.ok emptyStates
  | Except.error e => Except.error e

/-! ## Remote enumeration: get_all_document_ids (app.py 231-298)

The while-True loop requests one page per iteration.  A well-formed page is
processed by pageOkResult; in every ok case the loop then exits: empty docs
hit `break`, a short page hits `break`, and a full page increments
page_number but immediately runs into the stray `break` at the end of the
loop body (app.py line 296), so no second page is ever requested after a
success.  A malformed page or a RequestException increments `retries` and
sleeps 5 seconds if `retries < max_retries`, else returns the literal empty
list.  listLoop carries fuel = max_retries - retries; the oracle is indexed
by the page number of the request URL and the global attempt counter.
ListingResult records the returned ids, the accumulator all_document_ids at
the moment of return, the number of HTTP requests, the list of sleep
durations performed, and whether the max-retries exit was taken.  Every
exception branch of the source is caught inside the loop, which is why the
embedding is a total function returning a plain result. -/

structure ListingResult where
  ids : List DocId
  accAtEnd : List DocId
  requests : Nat
  sleepTrace : List Nat
  exhausted : Bool
  err : Option PyErr
deriving DecidableEq, Repr

/-- The append loop at app.py 268-269: each entry contributes doc["id"]; an
entry without the id key raises KeyError at that point, which no handler in
get_all_document_ids catches. -/
def extractPageIds : List (Option DocId) → Except PyErr (List DocId)
  | [] => Except.ok []
  | none :: _ => Except.error PyErr.keyError
  | some d :: rest =>
    match extractPageIds rest with
    | Except.error e => Except.error e
    | Except.ok ds => Except.ok (d :: ds)

/-- Processing of one page with the data/docs keys present (app.py 262-274):
`if not documents: break` first, then the append loop - where an id-less
entry raises an uncaught KeyError, modelled by the error branch, losing the
accumulator - then the short-page break, or the full-page branch whose
page_number increment runs into the stray break. -/
def pageOkResult (pageSize : Nat) (docs : List (Option DocId)) (acc : List DocId)
    (reqs : Nat) (sleeps : List Nat) : ListingResult :=
  if docs.isEmpty then
    { ids := acc, accAtEnd := acc, requests := reqs + 1, sleepTrace := sleeps,
      exhausted := false, err := none }
  else
    match extractPageIds docs with
    | Except.error e =>
      { ids := [], accAtEnd := acc, requests := reqs + 1, sleepTrace := sleeps,
        exhausted := false, err := some e }
    | Except.ok pageIds =>
      if docs.length < pageSize then
        { ids := acc ++ pageIds, accAtEnd := acc ++ pageIds, requests := reqs + 1,
          sleepTrace := sleeps, exhausted := false, err := none }
      else
        { ids := acc ++ pageIds, accAtEnd := acc ++ pageIds, requests := reqs + 1,
          sleepTrace := sleeps, exhausted := false, err := none }

def listLoop (oracle : Nat → Nat → PageResp) (pageSize : Nat) :
    Nat → Nat → Nat → List DocId → Nat → List Nat → ListingResult
  | 0, t, page, acc, reqs, sleeps =>
    match oracle page t with
    | PageResp.ok docs => pageOkResult pageSize docs acc reqs sleeps
    | _ =>
      { ids := [], accAtEnd := acc, requests := reqs + 1, sleepTrace := sleeps,
        exhausted := true, err := none }
  | fuel + 1, t, page, acc, reqs, sleeps =>
    match oracle page t with
    | PageResp.ok docs => pageOkResult pageSize docs acc reqs sleeps
    | _ => listLoop oracle pageSize fuel (t + 1) page acc (reqs + 1) (sleeps ++ [5])

/-- get_all_document_ids: start at page 1 with an empty accumulator and
retries = 0 (fuel = maxRetries). -/
def get_all_document_ids (oracle : Nat → Nat → PageResp) (pageSize maxRetries : Nat) :
    ListingResult :=
  listLoop oracle pageSize maxRetries 0 1 [] 0 []

/-- A fault-free remote store holding the given documents in listing order:
every request for page p (1-based) succeeds with the p-th slice, every entry
carrying its id. -/
def serverPages (docs : List DocId) (pageSize : Nat) : Nat → Nat → PageResp :=
  fun page _ =>
    PageResp.ok (((docs.drop ((page - 1) * pageSize)).take pageSize).map some)

/-! ## Batch orchestration: main (app.py 435-505) -/

/-- Extraction of the document id from an upload response (app.py 480):
`response.get("data", [{}])[0].get("id")`.  A missing "data" key defaults
to [{}] whose first element has no id; an empty "data" list raises
IndexError; otherwise the first element's optional id is returned. -/
def extractDocId (resp : UploadJson) : Except PyErr (Option DocId) :=
  match resp.data with
  | none => Except.ok none
  | some [] => Except.error PyErr.indexError
  | some (d :: _) => Except.ok d

/-- Observable per-run events, recorded in order: hashing a file inside
should_upload, skipping it, attempting its upload, storing its record via
add_file, calling update_document_metadata for it, and triggering
parse_document for a remote document id. -/
inductive Action where
  | hashed (p : Path)
  | skipped (p : Path)
  | uploadAttempt (p : Path)
  | recorded (p : Path) (id : DocId)
  | tagged (p : Path) (id : DocId)
  | parsed (id : DocId)
deriving DecidableEq, Repr

/-- The local file an action touches, if any. -/
def Action.file? : Action → Option Path
  | Action.hashed q => some q
  | Action.skipped q => some q
  | Action.uploadAttempt q => some q
  | Action.recorded q _ => some q
  | Action.tagged q _ => some q
  | Action.parsed _ => none

/-- The local files mentioned by a trace. -/
def tracePaths (tr : List Action) : List Path := tr.filterMap Action.file?

/-- State threaded through the per-file loop of main: the file_states
mapping, the uploaded_files flag, the event trace, and a pending uncaught
exception (set once an expression in the loop body raised; the remaining
files are then not visited, modelling propagation out of the loop). -/
structure LoopState where
  st : SyncState
  flag : Bool
  trace : List Action
  err : Option PyErr

/-- One iteration of the per-file loop (app.py 469-491).  should_upload
false hits `continue` before the flag line.  A failed upload (None) prints
and still reaches line 491, setting uploaded_files = True.  On a response,
the id extraction may raise (uncaught, aborting the batch); a falsy id logs
and reaches line 491; a real id is stored via add_file, then the file is
re-hashed and update_document_metadata is called (that call catches its own
RequestException, hence never raises), then line 491 sets the flag. -/
def processFile (env : Env) (ls : LoopState) (f : Path) : LoopState :=
  if ls.err.isSome then ls
  else if should_upload env ls.st f = false then
    { ls with trace := ls.trace ++ [Action.hashed f, Action.skipped f] }
  else
    match env.upload f with
    | none =>
      { ls with
        trace := ls.trace ++ [Action.hashed f, Action.uploadAttempt f]
        flag := true }
    | some resp =>
      match extractDocId resp with
      | Except.error e =>
        { ls with
          trace := ls.trace ++ [Action.hashed f, Action.uploadAttempt f]
          err := some e }
      | Except.ok none =>
        { ls with
          trace := ls.trace ++ [Action.hashed f, Action.uploadAttempt f]
          flag := true }
      | Except.ok (some docId) =>
        { st := add_file env ls.st f docId none,
          flag := true,
          trace := ls.trace ++ [Action.hashed f, Action.uploadAttempt f]
            ++ (match get_file_sha1 env f with
                | none => []
                | some h => if h = "" then [] else [Action.recorded f docId])
            ++ [Action.tagged f docId],
          err := none }

/-- The per-file loop over the candidate list. -/
def runFiles (env : Env) : LoopState → List Path → LoopState
  | ls, [] => ls
  | ls, f :: fs => runFiles env (processFile env ls f) fs

/-- Outcome of one batch run: final file_states, event trace, the document
ids for which parse_document was called, and an uncaught exception if the
run aborted. -/
structure RunResult where
  state : SyncState
  trace : List Action
  parses : List DocId
  err : Option PyErr

/-- The batch body after dataset resolution (app.py 467-505): run the
per-file loop from an empty trace with uploaded_files = False; an uncaught
exception aborts before the parse stage; otherwise, when the flag is unset
main returns early, and when it is set main enumerates the remote ids with
page_size 30 and max_retries 3 - an uncaught exception escaping that call
(the KeyError of the id-extraction loop) propagates out of main before any
parse trigger - and calls parse_document on each returned id. -/
def runBatch (env : Env) (st0 : SyncState) (files : List Path) : RunResult :=
  let ls := runFiles env { st := st0, flag := false, trace := [], err := none } files
  match ls.err with
  | some e => { state := ls.st, trace := ls.trace, parses := [], err := some e }
  | none =>
    if ls.flag then
      let lr := get_all_document_ids env.pages 30 3
      match lr.err with
      | some e => { state := ls.st, trace := ls.trace, parses := [], err := some e }
      | none =>
        { state := ls.st, trace := ls.trace ++ lr.ids.map Action.parsed,
          parses := lr.ids, err := none }
    else
      { state := ls.st, trace := ls.trace, parses := [], err := none }

/-- The shipped DEBUG flag (app.py line 38). -/
def DEBUG : Bool := true

/-- files = files[:5] when DEBUG (app.py 464-465). -/
def candidateFiles (files : List Path) : List Path :=
  if DEBUG then files.take 5 else files

/-- main's batch portion over the discovered file list. -/
def mainRun (env : Env) (st0 : SyncState) (files : List Path) : RunResult :=
  runBatch env st0 (candidateFiles files)

/-! ## Concrete environments used by witnesses and counterexamples -/

/-- Every file hashes to h0; every upload fails (upload_document returns
None); the remote store answers every listing request with the single
document d1. -/
def envC1 : Env :=
  { fs := fun _ => some [0],
    sha1 := fun _ => "h0",
    upload := fun _ => none,
    pages := fun _ _ => PageResp.ok [some "d1"] }

/-- The upload of file a yields HTTP-success JSON whose data list is empty;
any other upload yields a well-formed response. -/
def envC6 : Env :=
  { fs := fun _ => some [0],
    sha1 := fun _ => "h0",
    upload := fun p =>
      if p = "a" then some { data := some [] }
      else some { data := some [some "okid"] },
    pages := fun _ _ => PageResp.ok [some "d1"] }

/-- Every upload succeeds with a data list whose first element has no id. -/
def envC8 : Env :=
  { fs := fun _ => some [0],
    sha1 := fun _ => "h0",
    upload := fun _ => some { data := some [none] },
    pages := fun _ _ => PageResp.ok [] }

/-- A quiet environment for frame witnesses: hashing succeeds everywhere
except the path gone, uploads fail, listing requests are malformed. -/
def envW : Env :=
  { fs := fun p => if p = "gone" then none else some [1, 2],
    sha1 := fun _ => "aa",
    upload := fun _ => none,
    pages := fun _ _ => PageResp.malformed }

/-- Witness state: tracked stores the digest aa (matching envW's hash),
changed stores the digest bb. -/
def stW : SyncState := fun p =>
  if p = "tracked" then
    some { basename := "tracked", sha1 := "aa", document_id := some "d0",
           cosine_similarity := none }
  else if p = "changed" then
    some { basename := "changed", sha1 := "bb", document_id := some "d1",
           cosine_similarity := none }
  else none

/-! ## Helper lemmas -/

theorem concatBufs_single (c : Content) : concatBufs [c] = c := by
  simp [concatBufs]

theorem concat_chunkBlocks_bounded (bsPred : Nat) :
    ∀ (n : Nat) (c : List Nat), c.length ≤ n →
      concatBufs (chunkBlocks bsPred c) = c := by
  intro n
  induction n with
  | zero =>
    intro c hc
    have hcnil : c = [] := List.length_eq_zero.mp (Nat.le_zero.mp hc)
    subst hcnil
    simp [chunkBlocks, concatBufs]
  | succ n ih =>
    intro c hc
    cases c with
    | nil => simp [chunkBlocks, concatBufs]
    | cons x xs =>
      simp only [chunkBlocks, concatBufs]
      rw [ih (xs.drop bsPred)
        (by simp only [List.length_drop]; simp only [List.length_cons] at hc; omega)]
      have hdrop : xs.drop bsPred = (x :: xs).drop (bsPred + 1) := rfl
      rw [hdrop, List.take_append_drop]

theorem concat_chunkBlocks (bsPred : Nat) (c : List Nat) :
    concatBufs (chunkBlocks bsPred c) = c :=
  concat_chunkBlocks_bounded bsPred c.length c (Nat.le_refl _)

theorem get_file_sha1_ne_empty (env : Env) (p : Path) (d : Digest)
    (hsha : ∀ c : Content, env.sha1 c ≠ "")
    (hg : get_file_sha1 env p = some d) : d ≠ "" := by
  unfold get_file_sha1 at hg
  cases hf : env.fs p with
  | none => rw [hf] at hg; cases hg
  | some c =>
    rw [hf] at hg
    rw [← Option.some.inj hg]
    exact hsha _

theorem extractPageIds_error :
    ∀ (docs : List (Option DocId)) (e : PyErr),
      extractPageIds docs = Except.error e → e = PyErr.keyError := by
  intro docs
  induction docs with
  | nil => intro e he; cases he
  | cons d rest ih =>
    intro e he
    cases d with
    | none =>
      simp only [extractPageIds] at he
      exact (Except.error.inj he).symm
    | some d2 =>
      simp only [extractPageIds] at he
      split at he
      · rename_i e2 heq
        rw [Except.error.inj he] at heq
        exact ih e heq
      · exact Except.noConfusion he

theorem extractPageIds_mem_none :
    ∀ docs : List (Option DocId), none ∈ docs →
      extractPageIds docs = Except.error PyErr.keyError := by
  intro docs
  induction docs with
  | nil => intro h; exact absurd h (List.not_mem_nil none)
  | cons d rest ih =>
    intro h
    cases d with
    | none => rfl
    | some d2 =>
      have hr : none ∈ rest := by
        rcases List.mem_cons.mp h with h1 | h1
        · exact Option.noConfusion h1
        · exact h1
      simp only [extractPageIds]
      rw [ih hr]

theorem pageOkResult_fields (pageSize : Nat) (docs : List (Option DocId))
    (acc : List DocId) (reqs : Nat) (sleeps : List Nat) :
    (pageOkResult pageSize docs acc reqs sleeps).sleepTrace = sleeps ∧
    (pageOkResult pageSize docs acc reqs sleeps).requests = reqs + 1 ∧
    (pageOkResult pageSize docs acc reqs sleeps).exhausted = false := by
  unfold pageOkResult
  split
  · exact ⟨rfl, rfl, rfl⟩
  · split
    · exact ⟨rfl, rfl, rfl⟩
    · split
      · exact ⟨rfl, rfl, rfl⟩
      · exact ⟨rfl, rfl, rfl⟩

theorem pageOkResult_err (pageSize : Nat) (docs : List (Option DocId))
    (acc : List DocId) (reqs : Nat) (sleeps : List Nat) (e : PyErr)
    (he : (pageOkResult pageSize docs acc reqs sleeps).err = some e) :
    e = PyErr.keyError := by
  unfold pageOkResult at he
  split at he
  · exact absurd he (by simp)
  · split at he
    · rename_i e2 heq
      rw [Option.some.inj he] at heq
      exact extractPageIds_error docs e heq
    · split at he
      · exact absurd he (by simp)
      · exact absurd he (by simp)

theorem pageOkResult_raise (pageSize : Nat) (docs : List (Option DocId))
    (acc : List DocId) (reqs : Nat) (sleeps : List Nat) (hmem : none ∈ docs) :
    (pageOkResult pageSize docs acc reqs sleeps).err = some PyErr.keyError ∧
    (pageOkResult pageSize docs acc reqs sleeps).requests = reqs + 1 ∧
    (pageOkResult pageSize docs acc reqs sleeps).sleepTrace = sleeps := by
  have hne : docs.isEmpty = false := by
    cases docs
    · exact absurd hmem (List.not_mem_nil none)
    · rfl
  unfold pageOkResult
  rw [hne, extractPageIds_mem_none docs hmem]
  exact ⟨rfl, rfl, rfl⟩

theorem listLoop_inv (oracle : Nat → Nat → PageResp) (pageSize : Nat) :
    ∀ (fuel t page : Nat) (acc : List DocId) (reqs : Nat) (sleeps : List Nat),
      ∃ k, k ≤ fuel ∧
        (listLoop oracle pageSize fuel t page acc reqs sleeps).sleepTrace
          = sleeps ++ List.replicate k 5 ∧
        (listLoop oracle pageSize fuel t page acc reqs sleeps).requests
          = reqs + k + 1 ∧
        ((listLoop oracle pageSize fuel t page acc reqs sleeps).exhausted = true →
          k = fuel ∧
          (listLoop oracle pageSize fuel t page acc reqs sleeps).ids = [] ∧
          (listLoop oracle pageSize fuel t page acc reqs sleeps).accAtEnd = acc ∧
          (listLoop oracle pageSize fuel t page acc reqs sleeps).err = none) ∧
        (∀ e, (listLoop oracle pageSize fuel t page acc reqs sleeps).err = some e →
          e = PyErr.keyError) := by
  intro fuel
  induction fuel with
  | zero =>
    intro t page acc reqs sleeps
    refine ⟨0, Nat.le_refl 0, ?_⟩
    cases h : oracle page t with
    | ok docs =>
      obtain ⟨h1, h2, h3⟩ := pageOkResult_fields pageSize docs acc reqs sleeps
      simp only [listLoop, h]
      exact ⟨by simp [h1], by simp [h2], by simp [h3],
        fun e he => pageOkResult_err pageSize docs acc reqs sleeps e he⟩
    | malformed => simp only [listLoop, h]; simp
    | transportError => simp only [listLoop, h]; simp
  | succ n ih =>
    intro t page acc reqs sleeps
    cases h : oracle page t with
    | ok docs =>
      obtain ⟨h1, h2, h3⟩ := pageOkResult_fields pageSize docs acc reqs sleeps
      refine ⟨0, Nat.zero_le _, ?_⟩
      simp only [listLoop, h]
      exact ⟨by simp [h1], by simp [h2], by simp [h3],
        fun e he => pageOkResult_err pageSize docs acc reqs sleeps e he⟩
    | malformed =>
      obtain ⟨k, hk, h1, h2, h3, h4⟩ := ih (t + 1) page acc (reqs + 1) (sleeps ++ [5])
      refine ⟨k + 1, by omega, ?_, ?_, ?_, ?_⟩
      · simp only [listLoop, h]
        rw [h1, List.append_assoc]
        simp [List.replicate_succ]
      · simp only [listLoop, h]
        rw [h2]
        omega
      · simp only [listLoop, h]
        intro hx
        obtain ⟨hkf, hids, hacc, herr⟩ := h3 hx
        exact ⟨by omega, hids, hacc, herr⟩
      · simp only [listLoop, h]
        exact h4
    | transportError =>
      obtain ⟨k, hk, h1, h2, h3, h4⟩ := ih (t + 1) page acc (reqs + 1) (sleeps ++ [5])
      refine ⟨k + 1, by omega, ?_, ?_, ?_, ?_⟩
      · simp only [listLoop, h]
        rw [h1, List.append_assoc]
        simp [List.replicate_succ]
      · simp only [listLoop, h]
        rw [h2]
        omega
      · simp only [listLoop, h]
        intro hx
        obtain ⟨hkf, hids, hacc, herr⟩ := h3 hx
        exact ⟨by omega, hids, hacc, herr⟩
      · simp only [listLoop, h]
        exact h4

theorem add_file_frame (env : Env) (st : SyncState) (p q : Path) (docId : DocId)
    (cos : Option Int) (hq : q ≠ p) : add_file env st p docId cos q = st q := by
  unfold add_file
  cases get_file_sha1 env p with
  | none => rfl
  | some d =>
    by_cases hd : d = ""
    · simp [hd]
    · simp [hd, hq]

theorem add_file_hashfail (env : Env) (st : SyncState) (p : Path) (docId : DocId)
    (cos : Option Int) (hp : get_file_sha1 env p = none) :
    add_file env st p docId cos = st := by
  unfold add_file
  rw [hp]

theorem update_document_id_frame (st : SyncState) (p q : Path) (newId : DocId)
    (hq : q ≠ p) : update_document_id st p newId q = st q := by
  unfold update_document_id
  cases st p with
  | none => rfl
  | some r => simp [hq]

theorem update_document_id_untracked (st : SyncState) (p : Path) (newId : DocId)
    (hp : st p = none) : update_document_id st p newId = st := by
  unfold update_document_id
  rw [hp]

theorem update_document_id_tracked (st : SyncState) (p : Path) (newId : DocId) :
    ∀ r : FileRecord, st p = some r →
      update_document_id st p newId p = some { r with document_id := some newId } := by
  intro r hp
  unfold update_document_id
  rw [hp]
  simp

theorem processFile_st_frame (env : Env) (ls : LoopState) (f g : Path)
    (hg : g ≠ f) : (processFile env ls f).st g = ls.st g := by
  unfold processFile
  split
  · rfl
  split
  · rfl
  split
  · rfl
  split
  · rfl
  · rfl
  · exact add_file_frame env ls.st f g _ none hg

theorem tracePaths_recTr (env : Env) (f : Path) (docId : DocId) :
    ∀ x ∈ tracePaths
      (match get_file_sha1 env f with
        | none => []
        | some h => if h = "" then [] else [Action.recorded f docId]), x = f := by
  intro x hx
  unfold tracePaths at hx
  split at hx
  · simp at hx
  · split at hx
    · simp at hx
    · simp [Action.file?] at hx
      exact hx

theorem processFile_tracePaths (env : Env) (ls : LoopState) (f : Path) :
    ∀ x ∈ tracePaths (processFile env ls f).trace,
      x ∈ tracePaths ls.trace ∨ x = f := by
  intro x hx
  unfold processFile at hx
  split at hx
  · exact Or.inl hx
  split at hx
  · simp only [tracePaths, List.filterMap_append, List.mem_append] at hx
    rcases hx with hx | hx
    · exact Or.inl hx
    · right
      simp [Action.file?, List.filterMap_cons] at hx
      exact hx
  split at hx
  · simp only [tracePaths, List.filterMap_append, List.mem_append] at hx
    rcases hx with hx | hx
    · exact Or.inl hx
    · right
      simp [Action.file?, List.filterMap_cons] at hx
      exact hx
  split at hx
  · simp only [tracePaths, List.filterMap_append, List.mem_append] at hx
    rcases hx with hx | hx
    · exact Or.inl hx
    · right
      simp [Action.file?, List.filterMap_cons] at hx
      exact hx
  · simp only [tracePaths, List.filterMap_append, List.mem_append] at hx
    rcases hx with hx | hx
    · exact Or.inl hx
    · right
      simp [Action.file?, List.filterMap_cons] at hx
      exact hx
  · simp only [tracePaths, List.filterMap_append, List.mem_append] at hx
    rcases hx with ((hx | hx) | hx) | hx
    · exact Or.inl hx
    · right
      simp [Action.file?, List.filterMap_cons] at hx
      exact hx
    · exact Or.inr (tracePaths_recTr env f _ x hx)
    · right
      simp [Action.file?, List.filterMap_cons] at hx
      exact hx

theorem runFiles_tracePaths (env : Env) :
    ∀ (files : List Path) (ls : LoopState),
      ∀ x ∈ tracePaths (runFiles env ls files).trace,
        x ∈ tracePaths ls.trace ∨ x ∈ files := by
  intro files
  induction files with
  | nil =>
    intro ls x hx
    exact Or.inl hx
  | cons f fs ih =>
    intro ls x hx
    simp only [runFiles] at hx
    rcases ih (processFile env ls f) x hx with hx2 | hx2
    · rcases processFile_tracePaths env ls f x hx2 with h | h
      · exact Or.inl h
      · exact Or.inr (by simp [h])
    · exact Or.inr (by simp [hx2])

theorem runFiles_st_frame (env : Env) :
    ∀ (files : List Path) (ls : LoopState) (g : Path), g ∉ files →
      (runFiles env ls files).st g = ls.st g := by
  intro files
  induction files with
  | nil =>
    intro ls g _
    rfl
  | cons f fs ih =>
    intro ls g hg
    simp only [runFiles]
    rw [ih (processFile env ls f) g (fun hmem => hg (List.mem_cons_of_mem f hmem))]
    exact processFile_st_frame env ls f g
      (fun hgf => hg (hgf ▸ List.mem_cons_self f fs))

theorem runBatch_state (env : Env) (st0 : SyncState) (files : List Path) :
    (runBatch env st0 files).state
      = (runFiles env { st := st0, flag := false, trace := [], err := none } files).st := by
  simp only [runBatch]
  split
  · rfl
  · split
    · split
      · rfl
      · rfl
    · rfl

theorem runBatch_traceSources (env : Env) (st0 : SyncState) (files : List Path) :
    ∀ x ∈ tracePaths (runBatch env st0 files).trace, x ∈ files := by
  intro x hx
  have base : ∀ y ∈ tracePaths
      (runFiles env { st := st0, flag := false, trace := [], err := none } files).trace,
      y ∈ files := by
    intro y hy
    rcases runFiles_tracePaths env files _ y hy with h | h
    · simp [tracePaths] at h
    · exact h
  simp only [runBatch] at hx
  split at hx
  · exact base x hx
  · split at hx
    · split at hx
      · exact base x hx
      · simp only [tracePaths, List.filterMap_append, List.mem_append] at hx
        rcases hx with hx | hx
        · exact base x hx
        · exfalso
          simp [List.filterMap_map, Function.comp, Action.file?] at hx
    · exact base x hx

/-! ## Claims -/

/-- C1: (code bug in app.py line 491) the claim states that parse triggers
occur only when at least one file was actually uploaded, and that a run in
which every candidate is skipped or fails to upload performs no document
enumeration and no parse-trigger calls.  The code sets uploaded_files = True
outside the `if response:` success branch, so a run whose single candidate
file fails to upload (upload_document returns None, state untouched) still
enumerates the remote documents and triggers parsing on them. -/
theorem c1_parse_triggered_without_upload :
    (mainRun envC1 emptyStates ["a"]).trace
      = [Action.hashed "a", Action.uploadAttempt "a", Action.parsed "d1"] ∧
    (mainRun envC1 emptyStates ["a"]).parses = ["d1"] ∧
    (mainRun envC1 emptyStates ["a"]).state "a" = none ∧
    (mainRun envC1 emptyStates ["a"]).err = none := by
  refine ⟨?_, ?_, ?_, ?_⟩ <;> decide

/-- C2 counterexample: the claim states that on every malformed page the
listing retries within the bound, with backoff, and never raises past the
bound.  But a page whose data.docs keys are present while its single docs
entry lacks the id key makes doc["id"] raise KeyError on the very first
attempt - it escapes immediately (only requests.RequestException is caught),
with zero retries, zero sleeps and no max-retries exit. -/
theorem c2_counterexample :
    (get_all_document_ids (fun _ _ => PageResp.ok [none]) 30 3).err
      = some PyErr.keyError ∧
    (get_all_document_ids (fun _ _ => PageResp.ok [none]) 30 3).sleepTrace = [] ∧
    (get_all_document_ids (fun _ _ => PageResp.ok [none]) 30 3).requests = 1 ∧
    (get_all_document_ids (fun _ _ => PageResp.ok [none]) 30 3).exhausted = false := by
  refine ⟨?_, ?_, ?_, ?_⟩ <;> decide

/-- C2 (amended): for transport errors and for responses missing the
expected data/docs keys, get_all_document_ids retries up to the fixed bound
of 3 attempts, each retry preceded by one fixed 5-unit sleep, and on
exhausting the bound returns without raising exactly the ids accumulated so
far - provably none, since any successfully processed page exits the loop -
after 1 + max_retries = 4 requests.  But a page of the other malformed kind,
whose docs entries lack the id key, raises an uncaught KeyError: the only
exception the function can propagate, and a first page containing an
id-less entry raises it immediately, with no retry and no sleep. -/
theorem c2_retry_bound (oracle : Nat → Nat → PageResp) (pageSize : Nat) :
    (∃ k, k ≤ 3 ∧
      (get_all_document_ids oracle pageSize 3).sleepTrace = List.replicate k 5 ∧
      (get_all_document_ids oracle pageSize 3).requests = k + 1) ∧
    ((get_all_document_ids oracle pageSize 3).exhausted = true →
      (get_all_document_ids oracle pageSize 3).err = none ∧
      (get_all_document_ids oracle pageSize 3).ids
        = (get_all_document_ids oracle pageSize 3).accAtEnd ∧
      (get_all_document_ids oracle pageSize 3).ids = [] ∧
      (get_all_document_ids oracle pageSize 3).requests = 4 ∧
      (get_all_document_ids oracle pageSize 3).sleepTrace = List.replicate 3 5) ∧
    (∀ e, (get_all_document_ids oracle pageSize 3).err = some e →
      e = PyErr.keyError) ∧
    (∀ docs, oracle 1 0 = PageResp.ok docs → none ∈ docs →
      (get_all_document_ids oracle pageSize 3).err = some PyErr.keyError ∧
      (get_all_document_ids oracle pageSize 3).requests = 1 ∧
      (get_all_document_ids oracle pageSize 3).sleepTrace = []) := by
  obtain ⟨k, hk, h1, h2, h3, h4⟩ := listLoop_inv oracle pageSize 3 0 1 [] 0 []
  unfold get_all_document_ids
  refine ⟨?_, ?_, ?_, ?_⟩
  · exact ⟨k, hk, by simpa using h1, by rw [h2]; omega⟩
  · intro hx
    obtain ⟨hkf, hids, hacc, herr⟩ := h3 hx
    refine ⟨herr, by rw [hids, hacc], hids, by rw [h2]; omega, ?_⟩
    rw [h1, hkf]
    simp
  · exact h4
  · intro docs hor hmem
    obtain ⟨he, hr, hs⟩ :=
      pageOkResult_raise pageSize docs [] 0 [] hmem
    simp only [listLoop, hor]
    exact ⟨he, hr, hs⟩

/-- C2 witness: the always-transport-error oracle exhausts the bound into
the empty result after 4 requests, and an oracle whose first page carries an
id-less second entry makes the listing raise KeyError. -/
theorem c2_witness :
    (get_all_document_ids (fun _ _ => PageResp.transportError) 30 3).exhausted = true ∧
    (get_all_document_ids (fun _ _ => PageResp.transportError) 30 3).ids = [] ∧
    (get_all_document_ids (fun _ _ => PageResp.transportError) 30 3).requests = 4 ∧
    (get_all_document_ids (fun _ _ => PageResp.ok [some "d1", none]) 30 3).err
      = some PyErr.keyError :=
  ⟨by decide,
   ((c2_retry_bound (fun _ _ => PageResp.transportError) 30).2.1 (by decide)).2.2.1,
   ((c2_retry_bound (fun _ _ => PageResp.transportError) 30).2.1 (by decide)).2.2.2.1,
   ((c2_retry_bound (fun _ _ => PageResp.ok [some "d1", none]) 30).2.2.2
      [some "d1", none] rfl (by decide)).1⟩

/-- C3: (code bug in app.py line 296) against a fault-free store holding 3
documents with page size 2, get_all_document_ids returns only the first
page after a single request, instead of all 3 ids in ceil(3/2) = 2 requests
as the claim and the function docstring state: the stray break at the end
of the while body exits the loop right after every successfully processed
full page. -/
theorem c3_pagination_stops_after_first_page :
    (get_all_document_ids (serverPages ["d1", "d2", "d3"] 2) 2 3).ids = ["d1", "d2"] ∧
    (get_all_document_ids (serverPages ["d1", "d2", "d3"] 2) 2 3).requests = 1 ∧
    (get_all_document_ids (serverPages ["d1", "d2", "d3"] 2) 2 3).ids
      ≠ ["d1", "d2", "d3"] := by
  refine ⟨?_, ?_, ?_⟩ <;> decide

/-- C4: FileState.should_upload returns true when hashing fails, true for an
untracked path, false for a tracked path whose current digest equals the
stored one, and true for a tracked path whose current digest differs.  The
hypothesis records that hashlib never produces an empty hex digest, so the
source's truthiness test `if not sha1_sum` coincides with the None check. -/
theorem c4_should_upload_contract (env : Env) (st : SyncState) (p : Path)
    (hsha : ∀ c : Content, env.sha1 c ≠ "") :
    (get_file_sha1 env p = none → should_upload env st p = true) ∧
    (get_file_sha1 env p ≠ none → st p = none → should_upload env st p = true) ∧
    (∀ r : FileRecord, st p = some r → get_file_sha1 env p = some r.sha1 →
      should_upload env st p = false) ∧
    (∀ (r : FileRecord) (d : Digest), st p = some r → get_file_sha1 env p = some d →
      d ≠ r.sha1 → should_upload env st p = true) := by
  refine ⟨?_, ?_, ?_, ?_⟩
  · intro hn
    unfold should_upload
    rw [hn]
  · intro hn hun
    unfold should_upload
    cases hg : get_file_sha1 env p with
    | none => rfl
    | some d =>
      by_cases hd : d = ""
      · simp [hd]
      · simp [hd, hun]
  · intro r hr hg
    have hne : r.sha1 ≠ "" := get_file_sha1_ne_empty env p r.sha1 hsha hg
    unfold should_upload
    rw [hg, hr]
    simp [hne]
  · intro r d hr hg hne
    unfold should_upload
    rw [hg, hr]
    by_cases hd : d = ""
    · simp [hd]
    · simp [hd]
      exact fun h2 => hne h2.symm

/-- C4 witness: in the concrete environment envW with state stW, hashing
never yields an empty digest; the unreadable path gone, the untracked path
new and the changed path must upload, while the tracked unchanged path must
not. -/
theorem c4_witness :
    (∀ c : Content, envW.sha1 c ≠ "") ∧
    should_upload envW stW "gone" = true ∧
    should_upload envW stW "new" = true ∧
    should_upload envW stW "tracked" = false ∧
    should_upload envW stW "changed" = true := by
  have hsha : ∀ c : Content, envW.sha1 c ≠ "" := by
    intro c
    simp only [envW]
    decide
  refine ⟨hsha, ?_, ?_, ?_, ?_⟩
  · exact (c4_should_upload_contract envW stW "gone" hsha).1 (by decide)
  · exact (c4_should_upload_contract envW stW "new" hsha).2.1 (by decide) (by decide)
  · exact (c4_should_upload_contract envW stW "tracked" hsha).2.2.1
      { basename := "tracked", sha1 := "aa", document_id := some "d0",
        cosine_similarity := none } (by decide) (by decide)
  · exact (c4_should_upload_contract envW stW "changed" hsha).2.2.2
      { basename := "changed", sha1 := "bb", document_id := some "d1",
        cosine_similarity := none } "aa" (by decide) (by decide) (by decide)

/-- C5 counterexample: the claim states that _load_state returns an empty
state and never raises for every snapshot condition including an unreadable
file; but the except clause names only FileNotFoundError and JSONDecodeError,
so a PermissionError raised when opening an existing unreadable snapshot
propagates to the caller instead of yielding the empty state. -/
theorem c5_counterexample :
    load_state Snapshot.unreadable = Except.error PyErr.permission := rfl

/-- C5 (amended): _load_state returns the empty state without raising when
the snapshot file is absent or its contents are malformed, and returns the
parsed mapping for a valid snapshot; only an unreadable snapshot makes it
raise. -/
theorem c5_load_recovers (m : SyncState) :
    load_state Snapshot.absent = Except.ok emptyStates ∧
    load_state Snapshot.malformed = Except.ok emptyStates ∧
    load_state (Snapshot.valid m) = Except.ok m :=
  ⟨rfl, rfl, rfl⟩

/-- C6: (code bug in app.py line 480) the claim states every per-file error,
including document-id extraction failure, is caught inside the per-file loop.
But when an upload succeeds with response JSON whose data field is the empty
list, `response.get("data", [{}])[0]` raises IndexError, which no handler
catches: the batch aborts, the second candidate file is never hashed or
visited, and no parse triggers run. -/
theorem c6_extraction_aborts_batch :
    (mainRun envC6 emptyStates ["a", "b"]).err = some PyErr.indexError ∧
    (mainRun envC6 emptyStates ["a", "b"]).trace
      = [Action.hashed "a", Action.uploadAttempt "a"] ∧
    (mainRun envC6 emptyStates ["a", "b"]).parses = [] := by
  refine ⟨?_, ?_, ?_⟩ <;> decide

/-- C7 counterexample: the claim states get_file_sha1 reads the file in
fixed-size 4096-byte blocks; but on a 4097-byte file the code performs a
single afile.read() whose returned buffer is the whole 4097-byte content,
which is larger than one 4096-byte block. -/
theorem c7_counterexample :
    List.replicate 4097 (0 : Nat) ∈ get_file_sha1_reads (List.replicate 4097 (0 : Nat)) ∧
    4096 < (List.replicate 4097 (0 : Nat)).length := by
  constructor
  · exact List.mem_singleton.mpr rfl
  · rw [List.length_replicate]
    omega

/-- C7 (amended): get_file_sha1 reads the file's entire byte content in a
single read call rather than in 4096-byte blocks, and the resulting digest
equals the hash of the full content - the same digest the spec's 4096-byte
block-streaming reference produces. -/
theorem c7_single_read_digest (sha1 : Content → Digest) (c : Content) :
    get_file_sha1_reads c = [c] ∧
    hasherDigest sha1 (get_file_sha1_reads c) = sha1 c ∧
    hasherDigest sha1 (specStreamReads c) = sha1 c := by
  refine ⟨rfl, ?_, ?_⟩
  · unfold hasherDigest get_file_sha1_reads
    rw [concatBufs_single]
  · unfold hasherDigest specStreamReads
    rw [concat_chunkBlocks]

/-- C8 counterexample: the claim states that after a successful upload whose
document id cannot be extracted, the state holds a record with an absent
remoteDocumentId.  In the run below the upload succeeds with a data item
lacking an id, no exception occurs, yet the state holds no record at all for
the path - it is left entirely untracked. -/
theorem c8_counterexample :
    (mainRun envC8 emptyStates ["a"]).state "a" = none ∧
    (mainRun envC8 emptyStates ["a"]).err = none ∧
    (mainRun envC8 emptyStates ["a"]).trace
      = [Action.hashed "a", Action.uploadAttempt "a"] := by
  refine ⟨?_, ?_, ?_⟩ <;> decide

/-- C8 (amended): when an upload succeeds but the document id cannot be
extracted (the response's first data item has no id), the per-file step
leaves the whole state mapping unchanged - the path stays untracked, with no
record in an unknown-id state - and raises nothing, so the next run retries
the file. -/
theorem c8_no_record_on_missing_id (env : Env) (ls : LoopState) (f : Path)
    (resp : UploadJson) (herr : ls.err = none) (hup : env.upload f = some resp)
    (hex : extractDocId resp = Except.ok none) :
    (processFile env ls f).st = ls.st ∧ (processFile env ls f).err = none := by
  unfold processFile
  by_cases hsu : should_upload env ls.st f = false
  · simp [herr, hsu]
  · simp [herr, hsu, hup, hex]

/-- C8 witness: concrete instantiation of the amended claim in envC8. -/
theorem c8_witness :
    envC8.upload "a" = some { data := some [none] } ∧
    extractDocId { data := some [none] } = Except.ok none ∧
    (processFile envC8 { st := emptyStates, flag := false, trace := [], err := none }
      "a").st = emptyStates :=
  ⟨rfl, rfl,
   (c8_no_record_on_missing_id envC8
      { st := emptyStates, flag := false, trace := [], err := none } "a"
      { data := some [none] } rfl rfl rfl).1⟩

/-- C9: add_file and update_document_id are frame-respecting: they change at
most the record keyed by the given path (every other key reads back
unchanged); add_file leaves the whole mapping unchanged when the fingerprint
cannot be computed; update_document_id leaves it unchanged on an untracked
path; and on a tracked path update_document_id rewrites only the document_id
field of that record. -/
theorem c9_frame (env : Env) (st : SyncState) (p q : Path) (docId : DocId)
    (cos : Option Int) :
    (q ≠ p → add_file env st p docId cos q = st q) ∧
    (q ≠ p → update_document_id st p docId q = st q) ∧
    (get_file_sha1 env p = none → add_file env st p docId cos = st) ∧
    (st p = none → update_document_id st p docId = st) ∧
    (∀ r : FileRecord, st p = some r →
      update_document_id st p docId p = some { r with document_id := some docId }) :=
  ⟨fun hq => add_file_frame env st p q docId cos hq,
   fun hq => update_document_id_frame st p q docId hq,
   fun hp => add_file_hashfail env st p docId cos hp,
   fun hp => update_document_id_untracked st p docId hp,
   fun r hr => update_document_id_tracked st p docId r hr⟩

/-- C9 witness: concrete frame checks over envW and stW - a foreign key is
untouched by both operations, add_file no-ops on the unreadable path,
update_document_id no-ops on an untracked path, and on the tracked path it
rewrites exactly the document_id field. -/
theorem c9_witness :
    (("q" : Path) ≠ "tracked") ∧
    add_file envW stW "tracked" "nid" none "q" = stW "q" ∧
    update_document_id stW "tracked" "nid" "q" = stW "q" ∧
    get_file_sha1 envW "gone" = none ∧
    add_file envW stW "gone" "nid" none = stW ∧
    stW "untracked" = none ∧
    update_document_id stW "untracked" "nid" = stW ∧
    update_document_id stW "tracked" "nid" "tracked"
      = some { basename := "tracked", sha1 := "aa", document_id := some "nid",
               cosine_similarity := none } := by
  refine ⟨by decide, (c9_frame envW stW "tracked" "q" "nid" none).1 (by decide),
    (c9_frame envW stW "tracked" "q" "nid" none).2.1 (by decide), by decide,
    (c9_frame envW stW "gone" "q" "nid" none).2.2.1 (by decide), by decide,
    (c9_frame envW stW "untracked" "q" "nid" none).2.2.2.1 (by decide), ?_⟩
  exact (c9_frame envW stW "tracked" "q" "nid" none).2.2.2.2
    { basename := "tracked", sha1 := "aa", document_id := some "d0",
      cosine_similarity := none } (by decide)

/-- C10: with the shipped configuration DEBUG = True, the batch iterates over
files[:5]: a discovered file outside the first five is never visited - its
state entry is unchanged after the run and no trace action (hashing,
skipping, upload attempt, recording, tagging) touches it. -/
theorem c10_debug_file_cap (env : Env) (st0 : SyncState) (files : List Path)
    (g : Path) (hg : g ∉ files.take 5) :
    DEBUG = true ∧
    candidateFiles files = files.take 5 ∧
    (mainRun env st0 files).state g = st0 g ∧
    (∀ a ∈ (mainRun env st0 files).trace, a.file? ≠ some g) := by
  have hc : candidateFiles files = files.take 5 := by simp [candidateFiles, DEBUG]
  refine ⟨rfl, hc, ?_, ?_⟩
  · unfold mainRun
    rw [hc, runBatch_state]
    exact runFiles_st_frame env (files.take 5) _ g hg
  · intro a ha hfa
    have hmem : g ∈ tracePaths (mainRun env st0 files).trace := by
      unfold tracePaths
      exact List.mem_filterMap.mpr ⟨a, ha, hfa⟩
    unfold mainRun at hmem
    rw [hc] at hmem
    exact hg (runBatch_traceSources env st0 (files.take 5) g hmem)

/-- C10 witness: in a six-file discovery list the sixth file's state entry is
untouched by the whole run. -/
theorem c10_witness :
    (("b6" : Path) ∉ (["b1", "b2", "b3", "b4", "b5", "b6"] : List Path).take 5) ∧
    (mainRun envW emptyStates ["b1", "b2", "b3", "b4", "b5", "b6"]).state "b6"
      = emptyStates "b6" :=
  ⟨by decide,
   (c10_debug_file_cap envW emptyStates ["b1", "b2", "b3", "b4", "b5", "b6"] "b6"
      (by decide)).2.2.1⟩

end RagSync
